import Mathlib

/-!
Shallow embedding of `src/archive/server.py` (overseerr-mcp).

The transport layer (`make_overseerr_request`, lines 20-32) is modelled
abstractly as a backend oracle: each endpoint of the Overseerr API becomes a
function field of a backend structure, returning either a tagged error value
(the Python code's dict containing the key "Request Error") or the parsed
JSON payload, with every field the Python code reads via `.get` modelled as
an `Option`.  Python truthiness of `.get` results (None and 0 are falsy) is
modelled by `pyTruthy`.  The pagination loops of `get_movie_requests`
(lines 106-167) and `get_tv_requests` (lines 239-336) are embedded as
fuel-indexed recursions returning `none` exactly when the fuel runs out;
every remote call made by the code is additionally recorded in a call trace
so that properties about which requests are issued can be stated.
-/

namespace Overseerr

/-- The `media` sub-object of a raw request (fields read at lines 138, 148,
271, 278, 282 of server.py). -/
structure MediaInfo where
  tmdbId : Option Int
  tvdbId : Option Int
  status : Option Int
deriving DecidableEq

/-- One element of the `results` array of the request-list endpoint; `media`
is `none` when the key is missing or the dict is empty (both falsy at lines
138 and 271). -/
structure RawRequest where
  media : Option MediaInfo
  createdAt : Option String
deriving DecidableEq

/-- Response of `GET /api/v1/request`: the error dict produced by
`make_overseerr_request` (detected via `"Request Error" in response`,
lines 127 and 260), or a payload with `results` (line 132/265, default `[]`)
and `pageInfo.pages` (lines 161-162 and 330-331, default `0`). -/
inductive ListResponse where
  | error (msg : String)
  | ok (results : List RawRequest) (pages : Option Int)
deriving DecidableEq

/-- Response of `GET /api/v1/movie/id`: error dict or payload whose `title`
key may be missing (line 153). -/
inductive MovieDetails where
  | error (msg : String)
  | ok (title : Option String)
deriving DecidableEq

/-- An element of the `seasons` array of a TV-details payload (line 290). -/
structure Season where
  seasonNumber : Option Int
deriving DecidableEq

/-- An element of the `episodes` array of a season-details payload
(lines 311, 314). -/
structure Episode where
  episodeNumber : Option Int
  name : Option String
deriving DecidableEq

/-- Response of `GET /api/v1/tv/id`: error dict or payload with optional
`name` (line 319) and optional `seasons` (line 286). -/
inductive TvDetails where
  | error (msg : String)
  | ok (name : Option String) (seasons : Option (List Season))
deriving DecidableEq

/-- Response of `GET /api/v1/tv/id/season/n`: error dict or payload with
optional `episodes` (line 307). -/
inductive SeasonDetails where
  | error (msg : String)
  | ok (episodes : Option (List Episode))
deriving DecidableEq

/-- Python truthiness of the value of `.get` on an optional integer field:
`None` and `0` are falsy, every other integer truthy. -/
def pyTruthy : Option Int → Bool
  | none => false
  | some v => v != 0

/-- `movie_details.get("title", "Unknown Title")` (line 153); the error dict
has no `title` key, so it also yields the placeholder. -/
def MovieDetails.titleStr : MovieDetails → String
  | .error _ => "Unknown Title"
  | .ok t => t.getD "Unknown Title"

/-- `tv_details.get("name", "Unknown TV Show")` (line 319). -/
def TvDetails.nameStr : TvDetails → String
  | .error _ => "Unknown TV Show"
  | .ok n _ => n.getD "Unknown TV Show"

/-- `tv_details.get("seasons", [])` (line 286); the error dict has no
`seasons` key, so it yields the empty list. -/
def TvDetails.seasonsList : TvDetails → List Season
  | .error _ => []
  | .ok _ s => s.getD []

/-- `season_details.get("episodes", [])` (line 307). -/
def SeasonDetails.episodesList : SeasonDetails → List Episode
  | .error _ => []
  | .ok e => e.getD []

/-- The dict `media_status_mapping` with lookup default `"UNKNOWN"`
(lines 93-99 and 149, identically lines 226-232 and 283). -/
def media_status_mapping (code : Int) : String :=
  if code = 1 then "UNKNOWN"
  else if code = 2 then "PENDING"
  else if code = 3 then "PROCESSING"
  else if code = 4 then "PARTIALLY_AVAILABLE"
  else if code = 5 then "AVAILABLE"
  else "UNKNOWN"

/-- Python's format spec `02d` applied to an int (lines 297 and 313): pad
with a leading zero to width two; negative or multi-digit values are
rendered unpadded (their representation already has width at least two). -/
def pad2 (n : Int) : String :=
  if 0 ≤ n ∧ n ≤ 9 then "0" ++ toString n else toString n

/-- Python's `<` on strings: strict lexicographic comparison of the
sequences of Unicode code points, a proper prefix being smaller. -/
def charsLt : List Char → List Char → Bool
  | [], [] => false
  | [], _ :: _ => true
  | _ :: _, [] => false
  | a :: restA, b :: restB =>
    if a.val < b.val then true
    else if b.val < a.val then false
    else charsLt restA restB

/-- Python's `a < b` on strings, on the code-point sequences. -/
def pyStrLt (a b : String) : Bool :=
  charsLt a.data b.data

/-- The guard `if start_date and start_date > created_at: continue`
(lines 141 and 274): the request is skipped when `start_date` is truthy
(present and non-empty) and lexicographically greater than `created_at`
(Python's `x > y` is `y < x`). -/
def dateExcluded (startDate : Option String) (createdAt : String) : Bool :=
  match startDate with
  | none => false
  | some s => decide (s ≠ "") && pyStrLt createdAt s

/-- The list `valid_statuses` (lines 102 and 235). -/
def valid_statuses : List String :=
  ["all", "approved", "available", "pending", "processing", "unavailable", "failed"]

/-- `if status and status not in valid_statuses: status = None`
(lines 103-104 and 236-237). -/
def validateStatus : Option String → Option String
  | none => none
  | some s => if s ≠ "" ∧ s ∉ valid_statuses then none else some s

/-- `if status: params["filter"] = status.lower()` (lines 117-118 and
250-251): the value of the `filter` query parameter, `none` when the
parameter is not sent. -/
def filterParam : Option String → Option String
  | none => none
  | some s => if s ≠ "" then some s.toLower else none

/-- A movie summary dict (lines 152-156). -/
structure MovieRequestSummary where
  title : String
  media_availability : String
  request_date : String
deriving DecidableEq

/-- An element of the list returned by `get_movie_requests`: either the
single error dict of line 129 or a summary dict. -/
inductive MovieItem where
  | error (msg : String)
  | summary (s : MovieRequestSummary)
deriving DecidableEq

/-- An episode dict (lines 312-315). -/
structure EpisodeSummary where
  episode_number : String
  episode_name : String
deriving DecidableEq

/-- A TV summary dict (lines 318-325). -/
structure TvRequestSummary where
  tv_title : String
  tv_title_availability : String
  tv_season : String
  tv_season_availability : String
  tv_episodes : List EpisodeSummary
  request_date : String
deriving DecidableEq

/-- An element of the list returned by `get_tv_requests`: either the single
error dict of line 262 or a summary dict. -/
inductive TvItem where
  | error (msg : String)
  | summary (s : TvRequestSummary)
deriving DecidableEq

/-- One remote call issued through `make_overseerr_request`, recorded with
the parameters that determine the URL. -/
inductive ApiCall where
  | listCall (skip : Nat) (filter : Option String)
  | movieCall (id : Option Int)
  | tvCall (id : Option Int)
  | seasonCall (tvId : Option Int) (seasonNumber : Int)
deriving DecidableEq

/-- Backend oracle for `get_movie_requests`: the request-list endpoint
(keyed by `skip` and the optional `filter` parameter; `take=20` and
`sort=added` are constants, lines 107 and 116) and the movie-details
endpoint called by `get_movie_details` (lines 71-74, invoked at 145). -/
structure MovieBackend where
  listReq : Nat → Option String → ListResponse
  movie : Option Int → MovieDetails

/-- Backend oracle for `get_tv_requests`: the request-list endpoint, the
TV-details endpoint (`get_tv_details`, lines 188-191, invoked at 279 with
`media_info.get("tmdbId")`) and the season-details endpoint
(`get_season_details`, lines 194-197, invoked at 300). -/
structure TvBackend where
  listReq : Nat → Option String → ListResponse
  tv : Option Int → TvDetails
  season : Option Int → Int → SeasonDetails

/-- Body of the per-result movie processing (lines 135-158): classify as a
movie (`media_info and media_info.get("tmdbId") and not
media_info.get("tvdbId")`, line 138), apply the date filter (lines 140-142),
fetch movie details (line 145), normalize the status code (lines 148-149)
and build the summary (lines 152-158). -/
def processMovieResult (B : MovieBackend) (startDate : Option String)
    (r : RawRequest) : List MovieItem × List ApiCall :=
  match r.media with
  | none => ([], [])
  | some mi =>
    if pyTruthy mi.tmdbId && !pyTruthy mi.tvdbId then
      let created := r.createdAt.getD ""
      if dateExcluded startDate created then ([], [])
      else
        let det := B.movie mi.tmdbId
        ([MovieItem.summary
            { title := det.titleStr
              media_availability := media_status_mapping (mi.status.getD 1)
              request_date := created }],
         [ApiCall.movieCall mi.tmdbId])
    else ([], [])

/-- The `for result in results` loop of `get_movie_requests`
(lines 135-158), with the calls it issues recorded in order. -/
def processMovieResults (B : MovieBackend) (startDate : Option String) :
    List RawRequest → List MovieItem × List ApiCall
  | [] => ([], [])
  | r :: rest =>
    let p := processMovieResult B startDate r
    let q := processMovieResults B startDate rest
    (p.1 ++ q.1, p.2 ++ q.2)

/-- The `while has_more` pagination loop of `get_movie_requests`
(lines 114-165), indexed by fuel (`none` = the loop has not yet terminated
after `fuel` iterations).  Per iteration: fetch the page at offset `skip`
(line 125), on an error dict return the single-element error list discarding
the accumulator (lines 127-129), otherwise process the results
(lines 132-158), then stop when the reported page count is at most
`skip / 20 + 1` (lines 161-165). -/
def movieLoop (B : MovieBackend) (filt startDate : Option String) :
    Nat → Nat → List MovieItem → List ApiCall →
    Option (List MovieItem × List ApiCall)
  | 0, _, _, _ => none
  | fuel + 1, skip, acc, calls =>
    match B.listReq skip filt with
    | .error msg =>
        some ([MovieItem.error msg], calls ++ [ApiCall.listCall skip filt])
    | .ok results pages =>
        let p := processMovieResults B startDate results
        let acc2 := acc ++ p.1
        let calls2 := calls ++ ApiCall.listCall skip filt :: p.2
        if pages.getD 0 ≤ (skip / 20 : Nat) + 1 then some (acc2, calls2)
        else movieLoop B filt startDate fuel (skip + 20) acc2 calls2

/-- `get_movie_requests(status, start_date)` (lines 76-167): validate the
status filter (lines 101-104), then run the pagination loop from offset 0
with an empty accumulator (lines 106-165). -/
def get_movie_requests (B : MovieBackend) (status startDate : Option String)
    (fuel : Nat) : Option (List MovieItem × List ApiCall) :=
  movieLoop B (filterParam (validateStatus status)) startDate fuel 0 [] []

/-- The episode dict built at lines 310-315: `episode.get("episodeNumber", 0)`
zero-padded to two digits, and `episode.get("name", ...)` defaulting to the
string `"Episode "` followed by the unpadded number. -/
def formatEpisode (e : Episode) : EpisodeSummary :=
  let en := e.episodeNumber.getD 0
  { episode_number := pad2 en
    episode_name := e.name.getD ("Episode " ++ toString en) }

/-- Body of the per-season processing (lines 289-327): read
`season.get("seasonNumber", 0)` (line 290), skip season 0 without any
lookup (lines 292-294), otherwise fetch the season details (line 300),
format the episodes (lines 306-315) and build the summary (lines 317-327);
season availability is set equal to the show availability (line 304). -/
def processSeason (B : TvBackend) (tvId : Option Int) (td : TvDetails)
    (avail created : String) (season : Season) : List TvItem × List ApiCall :=
  let sn := season.seasonNumber.getD 0
  if sn = 0 then ([], [])
  else
    let sdet := B.season tvId sn
    ([TvItem.summary
        { tv_title := td.nameStr
          tv_title_availability := avail
          tv_season := "S" ++ pad2 sn
          tv_season_availability := avail
          tv_episodes := sdet.episodesList.map formatEpisode
          request_date := created }],
     [ApiCall.seasonCall tvId sn])

/-- The `for season in seasons` loop (lines 289-327). -/
def processSeasons (B : TvBackend) (tvId : Option Int) (td : TvDetails)
    (avail created : String) : List Season → List TvItem × List ApiCall
  | [] => ([], [])
  | s :: rest =>
    let p := processSeason B tvId td avail created s
    let q := processSeasons B tvId td avail created rest
    (p.1 ++ q.1, p.2 ++ q.2)

/-- Body of the per-result TV processing (lines 268-327): classify as TV
(`media_info and media_info.get("tvdbId")`, line 271), apply the date filter
(lines 273-275), fetch TV details keyed by `tmdbId` (lines 278-279),
normalize the status (lines 282-283), then process every season of
`tv_details.get("seasons", [])` (lines 286-327). -/
def processTvResult (B : TvBackend) (startDate : Option String)
    (r : RawRequest) : List TvItem × List ApiCall :=
  match r.media with
  | none => ([], [])
  | some mi =>
    if pyTruthy mi.tvdbId then
      let created := r.createdAt.getD ""
      if dateExcluded startDate created then ([], [])
      else
        let tvId := mi.tmdbId
        let td := B.tv tvId
        let avail := media_status_mapping (mi.status.getD 1)
        let p := processSeasons B tvId td avail created td.seasonsList
        (p.1, ApiCall.tvCall tvId :: p.2)
    else ([], [])

/-- The `for result in results` loop of `get_tv_requests` (lines 268-327). -/
def processTvResults (B : TvBackend) (startDate : Option String) :
    List RawRequest → List TvItem × List ApiCall
  | [] => ([], [])
  | r :: rest =>
    let p := processTvResult B startDate r
    let q := processTvResults B startDate rest
    (p.1 ++ q.1, p.2 ++ q.2)

/-- The `while has_more` pagination loop of `get_tv_requests`
(lines 247-334), structured exactly as `movieLoop`: error dict aborts with a
single-element error list (lines 260-262), otherwise the page's results are
processed (lines 265-327) and the loop stops when the reported page count is
at most `skip / 20 + 1` (lines 330-334). -/
def tvLoop (B : TvBackend) (filt startDate : Option String) :
    Nat → Nat → List TvItem → List ApiCall →
    Option (List TvItem × List ApiCall)
  | 0, _, _, _ => none
  | fuel + 1, skip, acc, calls =>
    match B.listReq skip filt with
    | .error msg =>
        some ([TvItem.error msg], calls ++ [ApiCall.listCall skip filt])
    | .ok results pages =>
        let p := processTvResults B startDate results
        let acc2 := acc ++ p.1
        let calls2 := calls ++ ApiCall.listCall skip filt :: p.2
        if pages.getD 0 ≤ (skip / 20 : Nat) + 1 then some (acc2, calls2)
        else tvLoop B filt startDate fuel (skip + 20) acc2 calls2

/-- `get_tv_requests(status, start_date)` (lines 200-336): validate the
status filter (lines 234-237), then run the pagination loop from offset 0
with an empty accumulator (lines 239-334). -/
def get_tv_requests (B : TvBackend) (status startDate : Option String)
    (fuel : Nat) : Option (List TvItem × List ApiCall) :=
  tvLoop B (filterParam (validateStatus status)) startDate fuel 0 [] []

/-- Result of a Python call that either returns a string or raises an
exception to the caller. -/
inductive PyStrResult where
  | raised
  | returns (s : String)
deriving DecidableEq

/-- `get_overseerr_status` (lines 53-69), applied to the dict returned by
`make_overseerr_request` for the status endpoint, with each value rendered
as the string Python would interpolate for it.  When `"version"` is a key
of the dict, the function builds and returns the availability report
(lines 61-63).  Otherwise it executes `data["url": url]` (line 66): the
subscript `"url": url` is a slice object, and subscripting a dict with a
slice raises (`TypeError: unhashable type` on CPython before 3.12, where
slices are unhashable, and `KeyError` from 3.12 on), so on this branch the
function never returns and the exception propagates to the caller. -/
def get_overseerr_status (data : List (String × String)) : PyStrResult :=
  if (data.map Prod.fst).contains "version" then
    .returns ("\n---\nOverseerr is available and these are the status data:"
      ++ "\n- "
      ++ String.intercalate "\n- " (data.map (fun kv => kv.1 ++ ": " ++ kv.2)))
  else
    .raised

/-- `get_overseerr_unavailable_tv_requests` (lines 169-185): its body is a
verbatim copy of `get_overseerr_status`, including the raising line 182. -/
def get_overseerr_unavailable_tv_requests (data : List (String × String)) :
    PyStrResult :=
  if (data.map Prod.fst).contains "version" then
    .returns ("\n---\nOverseerr is available and these are the status data:"
      ++ "\n- "
      ++ String.intercalate "\n- " (data.map (fun kv => kv.1 ++ ": " ++ kv.2)))
  else
    .raised

/-! ### Helper lemmas: loop unfolding -/

/-- An iteration of the movie pagination loop whose page fetch yields the
error dict returns the single-element error list at once. -/
lemma movieLoop_succ_error {B : MovieBackend} {filt startDate : Option String}
    {fuel skip : Nat} {acc : List MovieItem} {calls : List ApiCall} {msg : String}
    (h : B.listReq skip filt = .error msg) :
    movieLoop B filt startDate (fuel + 1) skip acc calls =
      some ([MovieItem.error msg], calls ++ [ApiCall.listCall skip filt]) := by
  simp [movieLoop, h]

/-- An iteration of the movie pagination loop on a successful page fetch:
process the page, then stop or continue according to the reported page
count. -/
lemma movieLoop_succ_ok {B : MovieBackend} {filt startDate : Option String}
    {fuel skip : Nat} {acc : List MovieItem} {calls : List ApiCall}
    {res : List RawRequest} {pgs : Option Int}
    (h : B.listReq skip filt = .ok res pgs) :
    movieLoop B filt startDate (fuel + 1) skip acc calls =
      (if pgs.getD 0 ≤ (skip / 20 : Nat) + 1 then
        some (acc ++ (processMovieResults B startDate res).1,
          calls ++ ApiCall.listCall skip filt :: (processMovieResults B startDate res).2)
      else movieLoop B filt startDate fuel (skip + 20)
        (acc ++ (processMovieResults B startDate res).1)
        (calls ++ ApiCall.listCall skip filt :: (processMovieResults B startDate res).2)) := by
  simp [movieLoop, h]

/-- An iteration of the TV pagination loop whose page fetch yields the error
dict returns the single-element error list at once. -/
lemma tvLoop_succ_error {B : TvBackend} {filt startDate : Option String}
    {fuel skip : Nat} {acc : List TvItem} {calls : List ApiCall} {msg : String}
    (h : B.listReq skip filt = .error msg) :
    tvLoop B filt startDate (fuel + 1) skip acc calls =
      some ([TvItem.error msg], calls ++ [ApiCall.listCall skip filt]) := by
  simp [tvLoop, h]

/-- An iteration of the TV pagination loop on a successful page fetch. -/
lemma tvLoop_succ_ok {B : TvBackend} {filt startDate : Option String}
    {fuel skip : Nat} {acc : List TvItem} {calls : List ApiCall}
    {res : List RawRequest} {pgs : Option Int}
    (h : B.listReq skip filt = .ok res pgs) :
    tvLoop B filt startDate (fuel + 1) skip acc calls =
      (if pgs.getD 0 ≤ (skip / 20 : Nat) + 1 then
        some (acc ++ (processTvResults B startDate res).1,
          calls ++ ApiCall.listCall skip filt :: (processTvResults B startDate res).2)
      else tvLoop B filt startDate fuel (skip + 20)
        (acc ++ (processTvResults B startDate res).1)
        (calls ++ ApiCall.listCall skip filt :: (processTvResults B startDate res).2)) := by
  simp [tvLoop, h]

/-! ### Helper lemmas: per-item processing invariants -/

/-- Nothing is lexicographically smaller than the empty string. -/
lemma charsLt_nil : ∀ l : List Char, charsLt l [] = false := by
  intro l
  cases l <;> rfl

/-- Python's `s > c` on strings is false when `s` is empty. -/
lemma pyStrLt_empty (c : String) : pyStrLt c "" = false := by
  show charsLt c.data [] = false
  exact charsLt_nil c.data

/-- A single processed movie result contributes only summary items and only
movie-details calls. -/
lemma processMovieResult_inv (B : MovieBackend) (sd : Option String)
    (r : RawRequest) :
    (∀ x ∈ (processMovieResult B sd r).1, ∃ s, x = MovieItem.summary s) ∧
    (∀ c ∈ (processMovieResult B sd r).2, ∃ i, c = ApiCall.movieCall i) := by
  rcases hm : r.media with _ | mi
  · simp [processMovieResult, hm]
  · by_cases h1 : (pyTruthy mi.tmdbId && !pyTruthy mi.tvdbId) = true
    · by_cases h2 : dateExcluded sd (r.createdAt.getD "") = true
      · simp [processMovieResult, hm, h1, h2]
      · simp [processMovieResult, hm, h1, h2]
    · simp [processMovieResult, hm, h1]

/-- The per-page movie processing contributes only summary items and only
movie-details calls. -/
lemma processMovieResults_inv (B : MovieBackend) (sd : Option String) :
    ∀ rs : List RawRequest,
    (∀ x ∈ (processMovieResults B sd rs).1, ∃ s, x = MovieItem.summary s) ∧
    (∀ c ∈ (processMovieResults B sd rs).2, ∃ i, c = ApiCall.movieCall i) := by
  intro rs
  induction rs with
  | nil => simp [processMovieResults]
  | cons r rest ih =>
    constructor
    · intro x hx
      simp only [processMovieResults] at hx
      rcases List.mem_append.1 hx with h | h
      · exact (processMovieResult_inv B sd r).1 x h
      · exact ih.1 x h
    · intro c hc
      simp only [processMovieResults] at hc
      rcases List.mem_append.1 hc with h | h
      · exact (processMovieResult_inv B sd r).2 c h
      · exact ih.2 c h

/-- Every call recorded by the movie pagination loop is either a seed call,
a request-list call with the loop's filter, or a movie-details call. -/
lemma movieLoop_calls_inv (B : MovieBackend) (filt sd : Option String) :
    ∀ (fuel skip : Nat) (acc : List MovieItem) (calls : List ApiCall)
      (out : List MovieItem) (cs : List ApiCall),
    movieLoop B filt sd fuel skip acc calls = some (out, cs) →
    ∀ c ∈ cs, c ∈ calls ∨ (∃ s, c = ApiCall.listCall s filt) ∨
      ∃ i, c = ApiCall.movieCall i := by
  intro fuel
  induction fuel with
  | zero => intro skip acc calls out cs h; simp [movieLoop] at h
  | succ n ih =>
    intro skip acc calls out cs h c hc
    rcases hB : B.listReq skip filt with msg | ⟨res, pgs⟩
    · rw [movieLoop_succ_error hB] at h
      simp only [Option.some.injEq, Prod.mk.injEq] at h
      obtain ⟨rfl, rfl⟩ := h
      rcases List.mem_append.1 hc with h1 | h1
      · exact Or.inl h1
      · have he : c = ApiCall.listCall skip filt := by simpa using h1
        exact Or.inr (Or.inl ⟨skip, he⟩)
    · rw [movieLoop_succ_ok hB] at h
      split at h
      · simp only [Option.some.injEq, Prod.mk.injEq] at h
        obtain ⟨rfl, rfl⟩ := h
        rcases List.mem_append.1 hc with h1 | h1
        · exact Or.inl h1
        · rcases List.mem_cons.1 h1 with h2 | h2
          · exact Or.inr (Or.inl ⟨skip, h2⟩)
          · exact Or.inr (Or.inr ((processMovieResults_inv B sd res).2 c h2))
      · rcases ih (skip + 20) _ _ _ _ h c hc with h1 | h1
        · rcases List.mem_append.1 h1 with h2 | h2
          · exact Or.inl h2
          · rcases List.mem_cons.1 h2 with h3 | h3
            · exact Or.inr (Or.inl ⟨skip, h3⟩)
            · exact Or.inr (Or.inr ((processMovieResults_inv B sd res).2 c h3))
        · exact Or.inr h1

/-- Termination of the movie pagination loop: when every successful page
report is bounded by `P` pages, fuel `P` suffices (the loop returns a value
rather than spinning). -/
lemma movieLoop_isSome (B : MovieBackend) (filt sd : Option String) (P : Nat)
    (hB : ∀ (s : Nat) (res : List RawRequest) (pgs : Option Int),
      B.listReq s filt = .ok res pgs → pgs.getD 0 ≤ (P : Int)) :
    ∀ (fuel skip : Nat) (acc : List MovieItem) (calls : List ApiCall),
    P ≤ skip / 20 + fuel → 1 ≤ fuel →
    (movieLoop B filt sd fuel skip acc calls).isSome = true := by
  intro fuel
  induction fuel with
  | zero => intro skip acc calls hP h1; exact absurd h1 (by omega)
  | succ n ih =>
    intro skip acc calls hP h1
    rcases hB2 : B.listReq skip filt with msg | ⟨res, pgs⟩
    · rw [movieLoop_succ_error hB2]; rfl
    · rw [movieLoop_succ_ok hB2]
      split
      · rfl
      · next hp =>
        have hle := hB skip res pgs hB2
        have h20 : (skip + 20) / 20 = skip / 20 + 1 :=
          Nat.add_div_right skip (by norm_num)
        apply ih (skip + 20)
        · rw [h20]; omega
        · omega

/-- A single processed season contributes only summaries whose season label
comes from a nonzero season number, and only season-details calls with a
nonzero season number. -/
lemma processSeason_inv (B : TvBackend) (tvId : Option Int) (td : TvDetails)
    (avail created : String) (season : Season) :
    (∀ x ∈ (processSeason B tvId td avail created season).1,
       ∃ summ sn, x = TvItem.summary summ ∧ sn ≠ (0 : Int) ∧
         summ.tv_season = "S" ++ pad2 sn) ∧
    (∀ c ∈ (processSeason B tvId td avail created season).2,
       ∃ sn, c = ApiCall.seasonCall tvId sn ∧ sn ≠ (0 : Int)) := by
  by_cases h : season.seasonNumber.getD 0 = 0
  · simp [processSeason, h]
  · constructor
    · intro x hx
      simp only [processSeason, if_neg h, List.mem_singleton] at hx
      exact ⟨_, season.seasonNumber.getD 0, hx, h, rfl⟩
    · intro c hc
      simp only [processSeason, if_neg h, List.mem_singleton] at hc
      exact ⟨season.seasonNumber.getD 0, hc, h⟩

/-- The season loop of one TV request keeps the invariants of
`processSeason_inv`. -/
lemma processSeasons_inv (B : TvBackend) (tvId : Option Int) (td : TvDetails)
    (avail created : String) :
    ∀ ss : List Season,
    (∀ x ∈ (processSeasons B tvId td avail created ss).1,
       ∃ summ sn, x = TvItem.summary summ ∧ sn ≠ (0 : Int) ∧
         summ.tv_season = "S" ++ pad2 sn) ∧
    (∀ c ∈ (processSeasons B tvId td avail created ss).2,
       ∃ sn, c = ApiCall.seasonCall tvId sn ∧ sn ≠ (0 : Int)) := by
  intro ss
  induction ss with
  | nil => simp [processSeasons]
  | cons s rest ih =>
    constructor
    · intro x hx
      simp only [processSeasons] at hx
      rcases List.mem_append.1 hx with h | h
      · exact (processSeason_inv B tvId td avail created s).1 x h
      · exact ih.1 x h
    · intro c hc
      simp only [processSeasons] at hc
      rcases List.mem_append.1 hc with h | h
      · exact (processSeason_inv B tvId td avail created s).2 c h
      · exact ih.2 c h

/-- A single processed TV result contributes only nonzero-season summaries,
and only TV-details and nonzero season-details calls. -/
lemma processTvResult_inv (B : TvBackend) (sd : Option String)
    (r : RawRequest) :
    (∀ x ∈ (processTvResult B sd r).1,
       ∃ summ sn, x = TvItem.summary summ ∧ sn ≠ (0 : Int) ∧
         summ.tv_season = "S" ++ pad2 sn) ∧
    (∀ c ∈ (processTvResult B sd r).2,
       (∃ i, c = ApiCall.tvCall i) ∨
       ∃ i sn, c = ApiCall.seasonCall i sn ∧ sn ≠ (0 : Int)) := by
  rcases hm : r.media with _ | mi
  · simp [processTvResult, hm]
  · by_cases h1 : pyTruthy mi.tvdbId = true
    · by_cases h2 : dateExcluded sd (r.createdAt.getD "") = true
      · simp [processTvResult, hm, h1, h2]
      · constructor
        · intro x hx
          simp only [processTvResult, hm, h1, if_true, h2, if_neg,
            Bool.not_eq_true, if_false] at hx
          exact (processSeasons_inv B mi.tmdbId (B.tv mi.tmdbId)
            (media_status_mapping (mi.status.getD 1)) (r.createdAt.getD "")
            (B.tv mi.tmdbId).seasonsList).1 x hx
        · intro c hc
          simp only [processTvResult, hm, h1, if_true, h2, if_neg,
            Bool.not_eq_true, if_false] at hc
          rcases List.mem_cons.1 hc with h3 | h3
          · exact Or.inl ⟨mi.tmdbId, h3⟩
          · obtain ⟨sn, hsn, hne⟩ := (processSeasons_inv B mi.tmdbId
              (B.tv mi.tmdbId) (media_status_mapping (mi.status.getD 1))
              (r.createdAt.getD "") (B.tv mi.tmdbId).seasonsList).2 c h3
            exact Or.inr ⟨mi.tmdbId, sn, hsn, hne⟩
    · simp [processTvResult, hm, h1]

/-- The per-page TV processing keeps the invariants of
`processTvResult_inv`. -/
lemma processTvResults_inv (B : TvBackend) (sd : Option String) :
    ∀ rs : List RawRequest,
    (∀ x ∈ (processTvResults B sd rs).1,
       ∃ summ sn, x = TvItem.summary summ ∧ sn ≠ (0 : Int) ∧
         summ.tv_season = "S" ++ pad2 sn) ∧
    (∀ c ∈ (processTvResults B sd rs).2,
       (∃ i, c = ApiCall.tvCall i) ∨
       ∃ i sn, c = ApiCall.seasonCall i sn ∧ sn ≠ (0 : Int)) := by
  intro rs
  induction rs with
  | nil => simp [processTvResults]
  | cons r rest ih =>
    constructor
    · intro x hx
      simp only [processTvResults] at hx
      rcases List.mem_append.1 hx with h | h
      · exact (processTvResult_inv B sd r).1 x h
      · exact ih.1 x h
    · intro c hc
      simp only [processTvResults] at hc
      rcases List.mem_append.1 hc with h | h
      · exact (processTvResult_inv B sd r).2 c h
      · exact ih.2 c h

/-- Full-run invariant of the TV pagination loop: every output item is a
seed item, the abort error, or a nonzero-season summary; every recorded call
is a seed call, a request-list call with the loop's filter, a TV-details
call, or a season-details call with a nonzero season number. -/
lemma tvLoop_inv (B : TvBackend) (filt sd : Option String) :
    ∀ (fuel skip : Nat) (acc : List TvItem) (calls : List ApiCall)
      (out : List TvItem) (cs : List ApiCall),
    tvLoop B filt sd fuel skip acc calls = some (out, cs) →
    (∀ x ∈ out, x ∈ acc ∨ (∃ m, x = TvItem.error m) ∨
       ∃ summ sn, x = TvItem.summary summ ∧ sn ≠ (0 : Int) ∧
         summ.tv_season = "S" ++ pad2 sn) ∧
    (∀ c ∈ cs, c ∈ calls ∨ (∃ s, c = ApiCall.listCall s filt) ∨
       (∃ i, c = ApiCall.tvCall i) ∨
       ∃ i sn, c = ApiCall.seasonCall i sn ∧ sn ≠ (0 : Int)) := by
  intro fuel
  induction fuel with
  | zero => intro skip acc calls out cs h; simp [tvLoop] at h
  | succ n ih =>
    intro skip acc calls out cs h
    rcases hB : B.listReq skip filt with msg | ⟨res, pgs⟩
    · rw [tvLoop_succ_error hB] at h
      simp only [Option.some.injEq, Prod.mk.injEq] at h
      obtain ⟨rfl, rfl⟩ := h
      constructor
      · intro x hx
        have he : x = TvItem.error msg := by simpa using hx
        exact Or.inr (Or.inl ⟨msg, he⟩)
      · intro c hc
        rcases List.mem_append.1 hc with h1 | h1
        · exact Or.inl h1
        · have he : c = ApiCall.listCall skip filt := by simpa using h1
          exact Or.inr (Or.inl ⟨skip, he⟩)
    · rw [tvLoop_succ_ok hB] at h
      split at h
      · simp only [Option.some.injEq, Prod.mk.injEq] at h
        obtain ⟨rfl, rfl⟩ := h
        constructor
        · intro x hx
          rcases List.mem_append.1 hx with h1 | h1
          · exact Or.inl h1
          · exact Or.inr (Or.inr ((processTvResults_inv B sd res).1 x h1))
        · intro c hc
          rcases List.mem_append.1 hc with h1 | h1
          · exact Or.inl h1
          · rcases List.mem_cons.1 h1 with h2 | h2
            · exact Or.inr (Or.inl ⟨skip, h2⟩)
            · exact Or.inr (Or.inr ((processTvResults_inv B sd res).2 c h2))
      · obtain ⟨hOut, hCalls⟩ := ih (skip + 20) _ _ _ _ h
        constructor
        · intro x hx
          rcases hOut x hx with h1 | h1 | h1
          · rcases List.mem_append.1 h1 with h2 | h2
            · exact Or.inl h2
            · exact Or.inr (Or.inr ((processTvResults_inv B sd res).1 x h2))
          · exact Or.inr (Or.inl h1)
          · exact Or.inr (Or.inr h1)
        · intro c hc
          rcases hCalls c hc with h1 | h1
          · rcases List.mem_append.1 h1 with h2 | h2
            · exact Or.inl h2
            · rcases List.mem_cons.1 h2 with h3 | h3
              · exact Or.inr (Or.inl ⟨skip, h3⟩)
              · exact Or.inr (Or.inr ((processTvResults_inv B sd res).2 c h3))
          · exact Or.inr h1

/-! ### Concrete scenario inputs -/

/-- A raw request whose media carries BOTH a `tmdbId` and a `tvdbId`. -/
def bothIdsRequest : RawRequest :=
  { media := some { tmdbId := some 42, tvdbId := some 99, status := some 5 }
    createdAt := some "2022-01-01T00:00:00.000Z" }

/-- One-page backend serving `bothIdsRequest`, with a one-season TV details
payload and a one-episode season payload. -/
def bothIdsBackend : TvBackend where
  listReq := fun skip _ =>
    if skip = 0 then .ok [bothIdsRequest] (some 1) else .error "unreachable"
  tv := fun _ => .ok (some "Show") (some [{ seasonNumber := some 1 }])
  season := fun _ _ => .ok (some [{ episodeNumber := some 1, name := some "Pilot" }])

/-- A backend that reports three total pages with empty result lists. -/
def threePagesBackend : MovieBackend where
  listReq := fun _ _ => .ok [] (some 3)
  movie := fun _ => .error "unreachable"

/-- A movie raw request (only `tmdbId`, status code 2). -/
def pageOneMovieRequest : RawRequest :=
  { media := some { tmdbId := some 7, tvdbId := none, status := some 2 }
    createdAt := some "2022-01-01T00:00:00.000Z" }

/-- A backend whose first page succeeds (reporting 3 total pages) and whose
second page fetch fails with a transport error. -/
def pageErrorBackend : MovieBackend where
  listReq := fun skip _ =>
    if skip = 0 then .ok [pageOneMovieRequest] (some 3) else .error "boom"
  movie := fun _ => .ok (some "Dune")

/-- A movie request created before the example start date. -/
def oldMovieRequest : RawRequest :=
  { media := some { tmdbId := some 42, tvdbId := none, status := some 5 }
    createdAt := some "2020-12-31T23:59:59.000Z" }

/-- A movie request created after the example start date. -/
def newMovieRequest : RawRequest :=
  { media := some { tmdbId := some 42, tvdbId := none, status := some 5 }
    createdAt := some "2021-06-01T00:00:00.000Z" }

/-- One-page backend serving the old and the new movie request. -/
def dateBackend : MovieBackend where
  listReq := fun _ _ => .ok [oldMovieRequest, newMovieRequest] (some 1)
  movie := fun _ => .ok (some "Dune")

/-- A backend whose movie-details lookup always fails. -/
def noTitleBackend : MovieBackend where
  listReq := fun _ _ => .ok [pageOneMovieRequest] (some 1)
  movie := fun _ => .error "lookup failed"

/-- A TV raw request (both ids absent except `tvdbId`; no status field). -/
def tvOnlyRequest : RawRequest :=
  { media := some { tmdbId := some 5, tvdbId := some 77, status := none }
    createdAt := none }

/-- A backend whose TV-details lookup always fails. -/
def noSeasonsBackend : TvBackend where
  listReq := fun _ _ => .ok [tvOnlyRequest] (some 1)
  tv := fun _ => .error "lookup failed"
  season := fun _ _ => .error "unreachable"

/-! ### Claim theorems -/

/-- C1: the spec claims every exposed operation returns a structured value
on every path, and in particular that `getStatus` returns a string both when
the backend reports a version and when the Backend Client returns an error
value.  The version branch does return the report string, but on the error
branch line 66 executes `data["url": url]`, a dict subscript by a slice
object, which raises an exception to the caller instead of returning; the
duplicated `get_overseerr_unavailable_tv_requests` raises identically on
its line 182.  This theorem evaluates the embedded code on both branches,
exhibiting the divergence (the code is a slip: the intent, per the spec and
the surrounding code, was `data["url"] = url`). -/
theorem C1_status_error_branch_raises :
    get_overseerr_status [("version", "1.33.2"), ("updateAvailable", "False")] =
      PyStrResult.returns
        ("\n---\nOverseerr is available and these are the status data:"
          ++ "\n- version: 1.33.2\n- updateAvailable: False") ∧
    get_overseerr_status [("Request Error", "connection refused")] =
      PyStrResult.raised ∧
    get_overseerr_unavailable_tv_requests [("Request Error", "connection refused")] =
      PyStrResult.raised :=
  ⟨rfl, rfl, rfl⟩

/-- C2 counterexample: the claim states that a raw request whose media has
both `tmdbId` and `tvdbId` set contributes no summary to the output of
`get_tv_requests`.  On the code, the TV branch tests only `tvdbId`
(line 271), so `bothIdsRequest` (tmdbId 42, tvdbId 99) is processed as TV
and contributes a full season summary. -/
theorem C2_counterexample_both_ids_yields_tv_summary :
    get_tv_requests bothIdsBackend none none 1 =
      some ([TvItem.summary
        { tv_title := "Show"
          tv_title_availability := "AVAILABLE"
          tv_season := "S01"
          tv_season_availability := "AVAILABLE"
          tv_episodes := [{ episode_number := "01", episode_name := "Pilot" }]
          request_date := "2022-01-01T00:00:00.000Z" }],
        [ApiCall.listCall 0 none, ApiCall.tvCall (some 42),
         ApiCall.seasonCall (some 42) 1]) :=
  rfl

/-- C2 amended: a record with both identifiers set is excluded from the
movie output (line 138 requires no `tvdbId`) but is classified as TV and
processed by `get_tv_requests` (line 271 requires only `tvdbId`); a record
with neither identifier truthy is dropped by both operations. -/
theorem C2_amended_classification :
    ∀ (B : MovieBackend) (B2 : TvBackend) (sd : Option String)
      (r : RawRequest) (mi : MediaInfo), r.media = some mi →
    (pyTruthy mi.tmdbId = true → pyTruthy mi.tvdbId = true →
       processMovieResult B sd r = ([], []) ∧
       (dateExcluded sd (r.createdAt.getD "") = false →
         ∃ rest, (processTvResult B2 sd r).2 = ApiCall.tvCall mi.tmdbId :: rest)) ∧
    (pyTruthy mi.tmdbId = false → pyTruthy mi.tvdbId = false →
       processMovieResult B sd r = ([], []) ∧ processTvResult B2 sd r = ([], [])) := by
  intro B B2 sd r mi hm
  constructor
  · intro h1 h2
    constructor
    · simp [processMovieResult, hm, h1, h2]
    · intro hd
      refine ⟨(processSeasons B2 mi.tmdbId (B2.tv mi.tmdbId)
        (media_status_mapping (mi.status.getD 1)) (r.createdAt.getD "")
        (B2.tv mi.tmdbId).seasonsList).2, ?_⟩
      simp [processTvResult, hm, h2, hd]
  · intro h1 h2
    constructor
    · simp [processMovieResult, hm, h1]
    · simp [processTvResult, hm, h2]

/-- C2 witness: the amended classification at the concrete both-ids record
and at a record with neither identifier. -/
theorem C2_amended_classification_witness :
    (pyTruthy (some (42 : Int)) = true → pyTruthy (some (99 : Int)) = true →
       processMovieResult threePagesBackend none bothIdsRequest = ([], []) ∧
       (dateExcluded none (bothIdsRequest.createdAt.getD "") = false →
         ∃ rest, (processTvResult bothIdsBackend none bothIdsRequest).2 =
           ApiCall.tvCall (some 42) :: rest)) ∧
    (pyTruthy (some (42 : Int)) = false → pyTruthy (some (99 : Int)) = false →
       processMovieResult threePagesBackend none bothIdsRequest = ([], []) ∧
       processTvResult bothIdsBackend none bothIdsRequest = ([], [])) :=
  C2_amended_classification threePagesBackend bothIdsBackend none bothIdsRequest
    { tmdbId := some 42, tvdbId := some 99, status := some 5 } rfl

/-- C3: if any page fetch during pagination returns the error dict, the
aggregation aborts at once and the overall result is the single-element
error list, discarding every summary accumulated from earlier pages; this
holds for both `get_movie_requests` and `get_tv_requests`, and concretely
for a backend whose second of three pages fails, where the movie summary
from page one is discarded. -/
theorem C3_pagination_error_aborts :
    (∀ (B : MovieBackend) (filt sd : Option String) (fuel skip : Nat)
       (acc : List MovieItem) (calls : List ApiCall) (msg : String),
       B.listReq skip filt = ListResponse.error msg →
       movieLoop B filt sd (fuel + 1) skip acc calls =
         some ([MovieItem.error msg], calls ++ [ApiCall.listCall skip filt])) ∧
    (∀ (B : TvBackend) (filt sd : Option String) (fuel skip : Nat)
       (acc : List TvItem) (calls : List ApiCall) (msg : String),
       B.listReq skip filt = ListResponse.error msg →
       tvLoop B filt sd (fuel + 1) skip acc calls =
         some ([TvItem.error msg], calls ++ [ApiCall.listCall skip filt])) ∧
    get_movie_requests pageErrorBackend none none 5 =
      some ([MovieItem.error "boom"],
        [ApiCall.listCall 0 none, ApiCall.movieCall (some 7),
         ApiCall.listCall 20 none]) :=
  ⟨fun _ _ _ _ _ _ _ _ h => movieLoop_succ_error h,
   fun _ _ _ _ _ _ _ _ h => tvLoop_succ_error h,
   rfl⟩

/-- C3 witness: the abort applied at the failing second page of
`pageErrorBackend`, with a nonempty accumulator that is discarded. -/
theorem C3_pagination_error_aborts_witness :
    movieLoop pageErrorBackend none none 1 20
      [MovieItem.summary
        { title := "Dune", media_availability := "PENDING"
          request_date := "2022-01-01T00:00:00.000Z" }]
      [ApiCall.listCall 0 none, ApiCall.movieCall (some 7)] =
      some ([MovieItem.error "boom"],
        [ApiCall.listCall 0 none, ApiCall.movieCall (some 7),
         ApiCall.listCall 20 none]) :=
  C3_pagination_error_aborts.1 pageErrorBackend none none 0 20
    [MovieItem.summary
      { title := "Dune", media_availability := "PENDING"
        request_date := "2022-01-01T00:00:00.000Z" }]
    [ApiCall.listCall 0 none, ApiCall.movieCall (some 7)] "boom" rfl

/-- C4: pagination issues exactly the reported number of page calls and
terminates.  Concretely, against a backend reporting 3 pages with page size
20, `get_movie_requests` makes exactly three request-list calls with skip
values 0, 20 and 40 and then stops (fuel 10 is not exhausted).  In general,
an iteration whose page reports a page count not greater than
`skip / 20 + 1` returns at once, and when every page report is bounded by
`P`, fuel `P` suffices for the loop to return. -/
theorem C4_pagination_termination :
    get_movie_requests threePagesBackend none none 10 =
      some ([], [ApiCall.listCall 0 none, ApiCall.listCall 20 none,
        ApiCall.listCall 40 none]) ∧
    (∀ (B : MovieBackend) (filt sd : Option String) (fuel skip : Nat)
       (acc : List MovieItem) (calls : List ApiCall)
       (res : List RawRequest) (pgs : Option Int),
       B.listReq skip filt = ListResponse.ok res pgs →
       pgs.getD 0 ≤ (skip / 20 : Nat) + 1 →
       movieLoop B filt sd (fuel + 1) skip acc calls =
         some (acc ++ (processMovieResults B sd res).1,
           calls ++ ApiCall.listCall skip filt ::
             (processMovieResults B sd res).2)) ∧
    (∀ (P : Nat) (B : MovieBackend) (filt sd : Option String),
       (∀ (s : Nat) (res : List RawRequest) (pgs : Option Int),
         B.listReq s filt = ListResponse.ok res pgs → pgs.getD 0 ≤ (P : Int)) →
       ∀ (fuel skip : Nat) (acc : List MovieItem) (calls : List ApiCall),
       P ≤ skip / 20 + fuel → 1 ≤ fuel →
       (movieLoop B filt sd fuel skip acc calls).isSome = true) := by
  refine ⟨rfl, ?_, ?_⟩
  · intro B filt sd fuel skip acc calls res pgs h hle
    rw [movieLoop_succ_ok h, if_pos hle]
  · intro P B filt sd hB fuel skip acc calls hP h1
    exact movieLoop_isSome B filt sd P hB fuel skip acc calls hP h1

/-- C4 witness: the stop condition applied at the third page of
`threePagesBackend` (skip 40, reported pages 3 = 40/20 + 1), and the
termination bound applied with P = 3 from offset 0. -/
theorem C4_pagination_termination_witness :
    movieLoop threePagesBackend none none 1 40 [] [ApiCall.listCall 0 none] =
      some ([] ++ (processMovieResults threePagesBackend none []).1,
        [ApiCall.listCall 0 none] ++ ApiCall.listCall 40 none ::
          (processMovieResults threePagesBackend none []).2) ∧
    (movieLoop threePagesBackend none none 3 0 [] []).isSome = true :=
  ⟨C4_pagination_termination.2.1 threePagesBackend none none 0 40 []
      [ApiCall.listCall 0 none] [] (some 3) rfl (by decide),
   C4_pagination_termination.2.2 3 threePagesBackend none none
      (fun s res pgs h => by
        injection h with h1 h2
        rw [← h2]
        decide)
      3 0 [] [] (by decide) (by decide)⟩

/-- C5: season exclusion.  A season whose `seasonNumber` (default 0) is 0
produces no summary and triggers no season-details lookup; and on any
completed run of `get_tv_requests`, no recorded call is a season-details
lookup for season 0, and every emitted summary's season label comes from a
nonzero season number. -/
theorem C5_season_zero_excluded :
    (∀ (B : TvBackend) (tvId : Option Int) (td : TvDetails)
       (avail created : String) (season : Season),
       season.seasonNumber.getD 0 = 0 →
       processSeason B tvId td avail created season = ([], [])) ∧
    (∀ (B : TvBackend) (st sd : Option String) (fuel : Nat)
       (out : List TvItem) (cs : List ApiCall),
       get_tv_requests B st sd fuel = some (out, cs) →
       (∀ i : Option Int, ApiCall.seasonCall i 0 ∉ cs) ∧
       (∀ summ : TvRequestSummary, TvItem.summary summ ∈ out →
         ∃ sn : Int, sn ≠ 0 ∧ summ.tv_season = "S" ++ pad2 sn)) := by
  constructor
  · intro B tvId td avail created season h
    simp [processSeason, h]
  · intro B st sd fuel out cs h
    unfold get_tv_requests at h
    obtain ⟨hOut, hCalls⟩ :=
      tvLoop_inv B (filterParam (validateStatus st)) sd fuel 0 [] [] out cs h
    constructor
    · intro i hc
      rcases hCalls _ hc with h1 | h1 | h1 | h1
      · exact List.not_mem_nil _ h1
      · obtain ⟨s, hs⟩ := h1
        exact ApiCall.noConfusion hs
      · obtain ⟨j, hj⟩ := h1
        exact ApiCall.noConfusion hj
      · obtain ⟨j, sn, hsn, hne⟩ := h1
        injection hsn with hj hzero
        exact hne (hzero ▸ rfl)
    · intro summ hmem
      rcases hOut _ hmem with h1 | h1 | h1
      · exact absurd h1 (List.not_mem_nil _)
      · obtain ⟨m, hm⟩ := h1
        exact TvItem.noConfusion hm
      · obtain ⟨summ2, sn, heq, hne, hseason⟩ := h1
        injection heq with hs
        exact ⟨sn, hne, hs ▸ hseason⟩

/-- C5 witness: the per-season exclusion applied to a season-0 record, and
the full-run invariant applied to the completed run of `bothIdsBackend`. -/
theorem C5_season_zero_excluded_witness :
    processSeason bothIdsBackend (some 42) (TvDetails.error "e") "UNKNOWN" ""
      { seasonNumber := some 0 } = ([], []) ∧
    ((∀ i : Option Int, ApiCall.seasonCall i 0 ∉
        [ApiCall.listCall 0 none, ApiCall.tvCall (some 42),
         ApiCall.seasonCall (some 42) 1]) ∧
     (∀ summ : TvRequestSummary,
        TvItem.summary summ ∈
          [TvItem.summary
            { tv_title := "Show"
              tv_title_availability := "AVAILABLE"
              tv_season := "S01"
              tv_season_availability := "AVAILABLE"
              tv_episodes := [{ episode_number := "01", episode_name := "Pilot" }]
              request_date := "2022-01-01T00:00:00.000Z" }] →
        ∃ sn : Int, sn ≠ 0 ∧ summ.tv_season = "S" ++ pad2 sn)) :=
  ⟨C5_season_zero_excluded.1 bothIdsBackend (some 42) (TvDetails.error "e")
      "UNKNOWN" "" { seasonNumber := some 0 } rfl,
   C5_season_zero_excluded.2 bothIdsBackend none none 1
      [TvItem.summary
        { tv_title := "Show"
          tv_title_availability := "AVAILABLE"
          tv_season := "S01"
          tv_season_availability := "AVAILABLE"
          tv_episodes := [{ episode_number := "01", episode_name := "Pilot" }]
          request_date := "2022-01-01T00:00:00.000Z" }]
      [ApiCall.listCall 0 none, ApiCall.tvCall (some 42),
       ApiCall.seasonCall (some 42) 1] rfl⟩

/-- C6: date filter exactness.  No request is excluded when no start date
is supplied; exclusion holds exactly when a start date is supplied and is
lexicographically greater than the request's `createdAt`; for a qualifying
movie request the output is empty exactly when the date filter excludes it;
a date-excluded qualifying TV request contributes nothing; and the two
example timestamps from the spec behave as claimed, also end to end. -/
theorem C6_date_filter_exactness :
    (∀ c : String, dateExcluded none c = false) ∧
    (∀ (sd : Option String) (c : String),
       dateExcluded sd c = true ↔ ∃ s, sd = some s ∧ pyStrLt c s = true) ∧
    (∀ (B : MovieBackend) (sd : Option String) (r : RawRequest)
       (mi : MediaInfo), r.media = some mi → pyTruthy mi.tmdbId = true →
       pyTruthy mi.tvdbId = false →
       ((processMovieResult B sd r).1 = [] ↔
         dateExcluded sd (r.createdAt.getD "") = true)) ∧
    (∀ (B : TvBackend) (sd : Option String) (r : RawRequest)
       (mi : MediaInfo), r.media = some mi → pyTruthy mi.tvdbId = true →
       dateExcluded sd (r.createdAt.getD "") = true →
       processTvResult B sd r = ([], [])) ∧
    dateExcluded (some "2021-01-01T00:00:00.000Z")
      "2020-12-31T23:59:59.000Z" = true ∧
    dateExcluded (some "2021-01-01T00:00:00.000Z")
      "2021-06-01T00:00:00.000Z" = false ∧
    get_movie_requests dateBackend none (some "2021-01-01T00:00:00.000Z") 1 =
      some ([MovieItem.summary
        { title := "Dune", media_availability := "AVAILABLE"
          request_date := "2021-06-01T00:00:00.000Z" }],
        [ApiCall.listCall 0 none, ApiCall.movieCall (some 42)]) := by
  refine ⟨fun c => rfl, ?_, ?_, ?_, by decide, by decide, rfl⟩
  · intro sd c
    rcases sd with _ | s
    · simp [dateExcluded]
    · by_cases hs : s = ""
      · subst hs
        simp [dateExcluded, pyStrLt_empty]
      · simp [dateExcluded, hs]
  · intro B sd r mi hm h1 h2
    by_cases hd : dateExcluded sd (r.createdAt.getD "") = true
    · simp [processMovieResult, hm, h1, h2, hd]
    · simp [processMovieResult, hm, h1, h2, hd]
  · intro B sd r mi hm h1 hd
    simp [processTvResult, hm, h1, hd]

/-- C6 witness: the iff applied to the included example request, and the
TV-side exclusion applied to a request with empty `createdAt`. -/
theorem C6_date_filter_exactness_witness :
    ((processMovieResult dateBackend (some "2021-01-01T00:00:00.000Z")
        newMovieRequest).1 = [] ↔
      dateExcluded (some "2021-01-01T00:00:00.000Z")
        (newMovieRequest.createdAt.getD "") = true) ∧
    processTvResult noSeasonsBackend (some "2021-01-01T00:00:00.000Z")
      tvOnlyRequest = ([], []) :=
  ⟨C6_date_filter_exactness.2.2.1 dateBackend
      (some "2021-01-01T00:00:00.000Z") newMovieRequest
      { tmdbId := some 42, tvdbId := none, status := some 5 } rfl rfl rfl,
   C6_date_filter_exactness.2.2.2.1 noSeasonsBackend
      (some "2021-01-01T00:00:00.000Z") tvOnlyRequest
      { tmdbId := some 5, tvdbId := some 77, status := none } rfl rfl
      (by decide)⟩

/-- C7: status normalization is total.  For every integer code the mapping
yields the fixed table value (UNKNOWN for 1, PENDING for 2, PROCESSING for
3, PARTIALLY_AVAILABLE for 4, AVAILABLE for 5, UNKNOWN for everything
else, e.g. 0, 6, -1), never an error; and a qualifying media record with no
status field defaults to code 1, making the summary's availability
UNKNOWN. -/
theorem C7_status_normalization_total :
    (∀ code : Int, media_status_mapping code =
       if code = 2 then "PENDING"
       else if code = 3 then "PROCESSING"
       else if code = 4 then "PARTIALLY_AVAILABLE"
       else if code = 5 then "AVAILABLE"
       else "UNKNOWN") ∧
    media_status_mapping 1 = "UNKNOWN" ∧
    media_status_mapping 0 = "UNKNOWN" ∧
    media_status_mapping 6 = "UNKNOWN" ∧
    media_status_mapping (-1) = "UNKNOWN" ∧
    (∀ (B : MovieBackend) (sd : Option String) (r : RawRequest)
       (mi : MediaInfo), r.media = some mi → mi.status = none →
       pyTruthy mi.tmdbId = true → pyTruthy mi.tvdbId = false →
       dateExcluded sd (r.createdAt.getD "") = false →
       (processMovieResult B sd r).1 =
         [MovieItem.summary
           { title := (B.movie mi.tmdbId).titleStr
             media_availability := "UNKNOWN"
             request_date := r.createdAt.getD "" }]) := by
  refine ⟨?_, rfl, rfl, rfl, rfl, ?_⟩
  · intro code
    unfold media_status_mapping
    split_ifs <;> first | rfl | omega
  · intro B sd r mi hm hst h1 h2 hd
    simp [processMovieResult, hm, h1, h2, hd, hst, media_status_mapping]

/-- C7 witness: the default-status case applied to `tvOnlyRequest`'s shape
adapted to a movie record with no status field. -/
theorem C7_status_normalization_total_witness :
    media_status_mapping ((7 : Int)) = "UNKNOWN" ∧
    (processMovieResult noTitleBackend none
      { media := some { tmdbId := some 7, tvdbId := none, status := none }
        createdAt := some "2022-01-01T00:00:00.000Z" }).1 =
      [MovieItem.summary
        { title := (noTitleBackend.movie (some 7)).titleStr
          media_availability := "UNKNOWN"
          request_date := "2022-01-01T00:00:00.000Z" }] :=
  ⟨(C7_status_normalization_total.1 7).trans (by decide),
   C7_status_normalization_total.2.2.2.2.2 noTitleBackend none
      { media := some { tmdbId := some 7, tvdbId := none, status := none }
        createdAt := some "2022-01-01T00:00:00.000Z" }
      { tmdbId := some 7, tvdbId := none, status := none } rfl rfl rfl rfl rfl⟩

/-- C8: status-filter validation is silent.  Any status outside the seven
allowed values makes both operations behave exactly as if no status had
been supplied (the computed filter parameter is `none`, so no filter is
sent and no error is returned); a member of the set is passed through
lowercased; and on any completed movie run, every request-list call carries
exactly the computed filter parameter. -/
theorem C8_status_filter_validation_silent :
    (∀ s : String, s ∉ valid_statuses →
       filterParam (validateStatus (some s)) = none ∧
       (∀ (B : MovieBackend) (sd : Option String) (fuel : Nat),
         get_movie_requests B (some s) sd fuel =
           get_movie_requests B none sd fuel) ∧
       (∀ (B : TvBackend) (sd : Option String) (fuel : Nat),
         get_tv_requests B (some s) sd fuel = get_tv_requests B none sd fuel)) ∧
    (∀ s : String, s ∈ valid_statuses →
       filterParam (validateStatus (some s)) = some s.toLower) ∧
    (∀ (B : MovieBackend) (st sd : Option String) (fuel : Nat)
       (out : List MovieItem) (cs : List ApiCall) (skip : Nat)
       (f : Option String),
       get_movie_requests B st sd fuel = some (out, cs) →
       ApiCall.listCall skip f ∈ cs →
       f = filterParam (validateStatus st)) := by
  refine ⟨?_, ?_, ?_⟩
  · intro s hs
    have hf : filterParam (validateStatus (some s)) = none := by
      by_cases he : s = ""
      · subst he
        simp [validateStatus, filterParam]
      · simp [validateStatus, filterParam, he, hs]
    refine ⟨hf, ?_, ?_⟩
    · intro B sd fuel
      unfold get_movie_requests
      rw [hf]
      rfl
    · intro B sd fuel
      unfold get_tv_requests
      rw [hf]
      rfl
  · intro s hs
    have hne : s ≠ "" := by
      intro h
      rw [h] at hs
      simp [valid_statuses] at hs
    simp [validateStatus, filterParam, hne, hs]
  · intro B st sd fuel out cs skip f h hmem
    unfold get_movie_requests at h
    rcases movieLoop_calls_inv B (filterParam (validateStatus st)) sd fuel 0
      [] [] out cs h _ hmem with h1 | h1 | h1
    · exact absurd h1 (List.not_mem_nil _)
    · obtain ⟨s2, hs2⟩ := h1
      rw [ApiCall.listCall.injEq] at hs2
      exact hs2.2
    · obtain ⟨i, hi⟩ := h1
      exact ApiCall.noConfusion hi

/-- C8 witness: an invalid status (`"AVAILABLE"`, wrong case) behaves as no
filter; the member `"approved"` is passed through; and the trace condition
applied to the completed run of `threePagesBackend`. -/
theorem C8_status_filter_validation_silent_witness :
    (filterParam (validateStatus (some "AVAILABLE")) = none ∧
     (∀ (B : MovieBackend) (sd : Option String) (fuel : Nat),
       get_movie_requests B (some "AVAILABLE") sd fuel =
         get_movie_requests B none sd fuel) ∧
     (∀ (B : TvBackend) (sd : Option String) (fuel : Nat),
       get_tv_requests B (some "AVAILABLE") sd fuel =
         get_tv_requests B none sd fuel)) ∧
    filterParam (validateStatus (some "approved")) = some "approved".toLower ∧
    none = filterParam (validateStatus (none : Option String)) :=
  ⟨C8_status_filter_validation_silent.1 "AVAILABLE" (by decide),
   C8_status_filter_validation_silent.2.1 "approved" (by decide),
   C8_status_filter_validation_silent.2.2 threePagesBackend none none 10
     [] [ApiCall.listCall 0 none, ApiCall.listCall 20 none,
       ApiCall.listCall 40 none] 20 none rfl (by decide)⟩

/-- C9: enrichment failures degrade but do not abort.  A qualifying movie
request whose details lookup fails or lacks a title is still emitted with
title "Unknown Title"; an episode record without a name is emitted with
name "Episode " followed by its number, the number zero-padded to two
digits; per-page movie processing emits only summaries (never an error
item), and each request is processed independently of the rest of the
page. -/
theorem C9_enrichment_degrades_not_aborts :
    (∀ (B : MovieBackend) (sd : Option String) (r : RawRequest)
       (mi : MediaInfo), r.media = some mi → pyTruthy mi.tmdbId = true →
       pyTruthy mi.tvdbId = false →
       dateExcluded sd (r.createdAt.getD "") = false →
       (∃ msg, B.movie mi.tmdbId = MovieDetails.error msg) ∨
         B.movie mi.tmdbId = MovieDetails.ok none →
       (processMovieResult B sd r).1 =
         [MovieItem.summary
           { title := "Unknown Title"
             media_availability := media_status_mapping (mi.status.getD 1)
             request_date := r.createdAt.getD "" }]) ∧
    (∀ e : Episode, e.name = none →
       formatEpisode e =
         { episode_number := pad2 (e.episodeNumber.getD 0)
           episode_name := "Episode " ++ toString (e.episodeNumber.getD 0) }) ∧
    (∀ (B : MovieBackend) (sd : Option String) (rs : List RawRequest),
       ∀ x ∈ (processMovieResults B sd rs).1, ∃ s, x = MovieItem.summary s) ∧
    (∀ (B : MovieBackend) (sd : Option String) (r : RawRequest)
       (rest : List RawRequest),
       processMovieResults B sd (r :: rest) =
         ((processMovieResult B sd r).1 ++ (processMovieResults B sd rest).1,
          (processMovieResult B sd r).2 ++ (processMovieResults B sd rest).2)) := by
  refine ⟨?_, ?_, ?_, ?_⟩
  · intro B sd r mi hm h1 h2 hd hdet
    rcases hdet with ⟨msg, hmsg⟩ | hok
    · simp [processMovieResult, hm, h1, h2, hd, hmsg, MovieDetails.titleStr]
    · simp [processMovieResult, hm, h1, h2, hd, hok, MovieDetails.titleStr]
  · intro e he
    simp [formatEpisode, he]
  · intro B sd rs
    exact (processMovieResults_inv B sd rs).1
  · intro B sd r rest
    rfl

/-- C9 witness: the fallback title applied to `noTitleBackend` (whose
details lookup fails) and the episode-name fallback at episode 3. -/
theorem C9_enrichment_degrades_not_aborts_witness :
    (processMovieResult noTitleBackend none pageOneMovieRequest).1 =
      [MovieItem.summary
        { title := "Unknown Title"
          media_availability := media_status_mapping ((some (2 : Int)).getD 1)
          request_date := "2022-01-01T00:00:00.000Z" }] ∧
    formatEpisode { episodeNumber := some 3, name := none } =
      { episode_number := pad2 ((some (3 : Int)).getD 0)
        episode_name := "Episode " ++ toString ((some (3 : Int)).getD 0) } :=
  ⟨C9_enrichment_degrades_not_aborts.1 noTitleBackend none pageOneMovieRequest
      { tmdbId := some 7, tvdbId := none, status := some 2 } rfl rfl rfl rfl
      (Or.inl ⟨"lookup failed", rfl⟩),
   C9_enrichment_degrades_not_aborts.2.1
      { episodeNumber := some 3, name := none } rfl⟩

/-- C10: when the TV-details lookup for a qualifying TV request returns the
error shape, or any payload without a seasons field, the seasons list is
empty, so that request contributes zero summaries (it is dropped rather
than emitted with a placeholder title and empty seasons), while each other
request of the page is processed independently. -/
theorem C10_tv_details_failure_drops_request :
    (∀ msg : String, (TvDetails.error msg).seasonsList = []) ∧
    (∀ nm : Option String, (TvDetails.ok nm none).seasonsList = []) ∧
    (∀ (B : TvBackend) (sd : Option String) (r : RawRequest)
       (mi : MediaInfo), r.media = some mi → pyTruthy mi.tvdbId = true →
       dateExcluded sd (r.createdAt.getD "") = false →
       (B.tv mi.tmdbId).seasonsList = [] →
       (processTvResult B sd r).1 = []) ∧
    (∀ (B : TvBackend) (sd : Option String) (r : RawRequest)
       (rest : List RawRequest),
       (processTvResults B sd (r :: rest)).1 =
         (processTvResult B sd r).1 ++ (processTvResults B sd rest).1) := by
  refine ⟨fun msg => rfl, fun nm => rfl, ?_, fun B sd r rest => rfl⟩
  intro B sd r mi hm h1 hd hseasons
  simp [processTvResult, hm, h1, hd, hseasons, processSeasons]

/-- C10 witness: the drop applied to `noSeasonsBackend`, whose TV-details
lookup fails for the qualifying request `tvOnlyRequest`. -/
theorem C10_tv_details_failure_drops_request_witness :
    (TvDetails.error "lookup failed").seasonsList = [] ∧
    (processTvResult noSeasonsBackend none tvOnlyRequest).1 = [] :=
  ⟨C10_tv_details_failure_drops_request.1 "lookup failed",
   C10_tv_details_failure_drops_request.2.2.1 noSeasonsBackend none
      tvOnlyRequest { tmdbId := some 5, tvdbId := some 77, status := none }
      rfl rfl rfl rfl⟩

end Overseerr
